import Mathlib

/-!
Formal model of the graceful-shutdown coordinator and database lifecycle
helpers of the express-app-better-auth-starter repository.

The shallow embedding covers:

* `shutdown` — the synchronous body of the `shutdown(signal)` closure in
  the graceful-shutdown module: the `isShuttingDown` guard, the
  start-of-call `clearTimeout`, the `server.close(...)` call and the
  `setTimeout(..., 10000)` arming of the forced-exit deadline.  The body
  is modelled as a state transformer that also emits the list of
  externally visible actions it performs, in source order.
* `closeCallback` — the callback passed to `server.close`: it awaits
  `disconnectDb()` inside a try/catch and exits with status 0 on success
  or 1 on a raised failure.
* `setupGracefulShutdown`, `emitOnce`, `deliver` — the registration layer:
  the module-level `shutdownHandlersRegistered` guard and the four
  `process.once(...)` one-shot trigger handlers (SIGTERM, SIGINT,
  uncaughtException, unhandledRejection), with Node's once-semantics
  (a handler runs at most once and is then removed).
* `runShutdownTimed` — a timed view of one shutdown sequence racing the
  10-second deadline timer against drain completion plus disconnect.
* `disconnectDb`, `connectDb`, `startServer` — the helpers from
  `src/helpers/connectDb.ts` and the bootstrap in `src/index.ts`.
-/

namespace ExpressStarter

/-- The four trigger classes handled by `setupGracefulShutdown`. -/
inductive TriggerKind
  | sigterm
  | sigint
  | uncaughtException
  | unhandledRejection
deriving DecidableEq

/-- The reason string each handler passes to `shutdown`, exactly as in the
source: `shutdown("SIGTERM")`, `shutdown("SIGINT")`,
`shutdown("UNCAUGHT_EXCEPTION")`, `shutdown("UNHANDLED_REJECTION")`. -/
def reasonOf : TriggerKind → String
  | TriggerKind.sigterm => "SIGTERM"
  | TriggerKind.sigint => "SIGINT"
  | TriggerKind.uncaughtException => "UNCAUGHT_EXCEPTION"
  | TriggerKind.unhandledRejection => "UNHANDLED_REJECTION"

/-- Externally visible actions performed by the shutdown sequence, in the
order the source performs them. -/
inductive Action
  | logStart (reason : String)
  | clearTimer (id : Nat)
  | serverClose
  | armTimer (id : Nat) (delayMs : Nat)
  | exitProc (code : Nat)
deriving DecidableEq

/-- Mutable state of the shutdown closure: the `isShuttingDown` guard and
the `shutdownTimeout` timer handle (`none` models the initial `null`).
`nextTimerId` is a bookkeeping counter naming the timer returned by each
`setTimeout` call. -/
structure CoordState where
  isShuttingDown : Bool
  shutdownTimeout : Option Nat
  nextTimerId : Nat
deriving DecidableEq

/-- Initial closure state: `isShuttingDown = false`,
`shutdownTimeout = null`. -/
def initCoord : CoordState := ⟨false, none, 0⟩

/-- Grace period of the forced-exit deadline: `setTimeout(..., 10000)`. -/
def GRACE_MS : Nat := 10000

/-- Synchronous body of `shutdown(signal)`:
if `isShuttingDown` return; set it; log the signal; `clearTimeout` the
existing timer when one is set; call `server.close(...)`; then arm the
forced-exit deadline with `setTimeout(..., 10000)` and store its handle.
The emitted action list follows the source order of these effects. -/
def shutdown (s : CoordState) (signal : String) : CoordState × List Action :=
  if s.isShuttingDown then (s, [])
  else
    let clearActs : List Action :=
      match s.shutdownTimeout with
      | some t => [Action.clearTimer t]
      | none => []
    let tid := s.nextTimerId
    (⟨true, some tid, tid + 1⟩,
      Action.logStart signal ::
        (clearActs ++ [Action.serverClose, Action.armTimer tid GRACE_MS]))

/-- Callback passed to `server.close`: logs, awaits `disconnectDb()` in a
try block, then `process.exit(0)`; the catch branch logs the error and
calls `process.exit(1)`.  `disconnectResult` is the outcome of the awaited
disconnect as observed by the callback.  No `clearTimeout` occurs here. -/
def closeCallback (disconnectResult : Except String Unit) : List Action :=
  match disconnectResult with
  | Except.ok _ => [Action.exitProc 0]
  | Except.error _ => [Action.exitProc 1]

/-- One full shutdown sequence on the non-deadline path: the synchronous
`shutdown` body followed by the `server.close` callback once the drain
completes.  The callback does not touch the closure state. -/
def runToCleanExit (s : CoordState) (signal : String)
    (disconnectResult : Except String Unit) : CoordState × List Action :=
  let step := shutdown s signal
  (step.1, step.2 ++ closeCallback disconnectResult)

/-- Number of times the cleanup body past the `isShuttingDown` guard was
entered, counted by its first effect (the start-of-shutdown log). -/
def countStart (acts : List Action) : Nat :=
  acts.countP fun a =>
    match a with
    | Action.logStart _ => true
    | _ => false

/-- Number of `clearTimeout` actions in a trace. -/
def countClears (acts : List Action) : Nat :=
  acts.countP fun a =>
    match a with
    | Action.clearTimer _ => true
    | _ => false

/-- Process-wide state for the registration layer: the module-level
`shutdownHandlersRegistered` flag, the list of installed once-handlers
(kind paired with an already-fired flag, Node removing a once-listener
after its first run being modelled by the flag), and the shutdown
closure state. -/
structure SysState where
  registered : Bool
  handlers : List (TriggerKind × Bool)
  coord : CoordState
deriving DecidableEq

/-- Fresh process: nothing registered, no handlers, closure state initial. -/
def initSys : SysState := ⟨false, [], initCoord⟩

/-- Body of `setupGracefulShutdown(server)`: if
`shutdownHandlersRegistered` return; set it; attach the four one-shot
handlers with `process.once`. -/
def setupGracefulShutdown (s : SysState) : SysState :=
  if s.registered then s
  else
    { s with
      registered := true
      handlers := s.handlers ++
        [(TriggerKind.sigterm, false), (TriggerKind.sigint, false),
         (TriggerKind.uncaughtException, false),
         (TriggerKind.unhandledRejection, false)] }

/-- Node event emission for a once-listener list: every not-yet-fired
handler matching the emitted kind runs once (calling `shutdown` with its
reason string) and is marked fired; other handlers are untouched.
Returns the updated handler list, the updated closure state, and the
actions emitted by the handler bodies. -/
def emitOnce : List (TriggerKind × Bool) → TriggerKind → CoordState →
    List (TriggerKind × Bool) × CoordState × List Action
  | [], _, c => ([], c, [])
  | (k, fired) :: rest, t, c =>
    if k == t && !fired then
      let step := shutdown c (reasonOf t)
      let recur := emitOnce rest t step.1
      ((k, true) :: recur.1, recur.2.1, step.2 ++ recur.2.2)
    else
      let recur := emitOnce rest t c
      ((k, fired) :: recur.1, recur.2.1, recur.2.2)

/-- Delivery of one trigger to the process: emit the event to the
installed handlers. -/
def deliver (s : SysState) (t : TriggerKind) : SysState × List Action :=
  let e := emitOnce s.handlers t s.coord
  ({ s with handlers := e.1, coord := e.2.1 }, e.2.2)

/-- Delivery of a sequence of triggers, accumulating the emitted actions. -/
def deliverAll : SysState → List TriggerKind → SysState × List Action
  | s, [] => (s, [])
  | s, t :: ts =>
    let d := deliver s t
    let rest := deliverAll d.1 ts
    (rest.1, d.2 ++ rest.2)

/-- Result of one timed shutdown sequence: the time (ms after the trigger)
and status of the `process.exit` that ends the process. -/
structure ExitEvent where
  time : Nat
  code : Nat
deriving DecidableEq

/-- Timed view of one shutdown sequence.  `drainTime` is when the
`server.close` drain callback fires (`none` = never), `disc` the further
time the awaited disconnect takes, `disconnectResult` its outcome as seen
by the callback.  Whichever of the main path and the 10-second deadline
timer completes first wins: if drain plus disconnect finish before
`GRACE_MS`, the callback exits with 0 or 1 by its try/catch; otherwise
the deadline action fires at `GRACE_MS` and calls `process.exit(1)`. -/
def runShutdownTimed (drainTime : Option Nat) (disc : Nat)
    (disconnectResult : Except String Unit) : ExitEvent :=
  match drainTime with
  | none => ⟨GRACE_MS, 1⟩
  | some d =>
    if d + disc < GRACE_MS then
      match disconnectResult with
      | Except.ok _ => ⟨d + disc, 0⟩
      | Except.error _ => ⟨d + disc, 1⟩
    else ⟨GRACE_MS, 1⟩

/-- Body of `disconnectDb` from `src/helpers/connectDb.ts`: awaits
`prisma.disconnect()` in a try block and logs success; the catch branch
logs the error and returns normally, so every outcome resolves.
`prismaOutcome` is the result of the underlying prisma call. -/
def disconnectDb (prismaOutcome : Except String Unit) : Except String Unit :=
  match prismaOutcome with
  | Except.ok _ => Except.ok ()
  | Except.error _ => Except.ok ()

/-- Possible outcomes of an async function call as seen by its caller:
the returned promise resolves, the promise rejects, or the function
terminated the process itself via `process.exit`. -/
inductive AsyncOutcome
  | resolved
  | rejected (err : String)
  | exited (code : Nat)
deriving DecidableEq

/-- Body of `connectDb` from `src/helpers/connectDb.ts`: awaits
`prisma.connect()` in a try block and logs the masked URL; the catch
branch logs the error code and message and calls `process.exit(1)`, so
the returned promise never rejects. -/
def connectDb (prismaOutcome : Except String Unit) : AsyncOutcome :=
  match prismaOutcome with
  | Except.ok _ => AsyncOutcome.resolved
  | Except.error _ => AsyncOutcome.exited 1

/-- Outcome of `startServer` in `src/index.ts` with respect to the
database-connection step. -/
inductive StartOutcome
  | started
  | failedToStart
  | exitedEarly (code : Nat)
deriving DecidableEq

/-- Bootstrap in `src/index.ts`: `await connectDb()` inside a try block;
on resolution the app is built, the listener started and
`setupGracefulShutdown` installed; the catch branch (`failedToStart`)
logs and exits 1, and is reached only if an awaited step rejects. -/
def startServer (prismaOutcome : Except String Unit) : StartOutcome :=
  match connectDb prismaOutcome with
  | AsyncOutcome.resolved => StartOutcome.started
  | AsyncOutcome.rejected _ => StartOutcome.failedToStart
  | AsyncOutcome.exited c => StartOutcome.exitedEarly c

/-- Entering `shutdown` while `isShuttingDown` is already set returns
immediately: the state is unchanged and no action is performed. -/
theorem shutdown_noop (c : CoordState) (signal : String)
    (h : c.isShuttingDown = true) : shutdown c signal = (c, []) := by
  unfold shutdown
  simp [h]

/-- Emitting any trigger while `isShuttingDown` holds leaves the closure
state unchanged and performs no action, whatever the handler list. -/
theorem emitOnce_noop (hs : List (TriggerKind × Bool)) (t : TriggerKind)
    (c : CoordState) (h : c.isShuttingDown = true) :
    (emitOnce hs t c).2.1 = c ∧ (emitOnce hs t c).2.2 = [] := by
  induction hs with
  | nil => exact ⟨rfl, rfl⟩
  | cons hd rest ih =>
    obtain ⟨k, fired⟩ := hd
    by_cases hc : (k == t && !fired) = true
    · simp only [emitOnce, hc, if_true, shutdown_noop c (reasonOf t) h]
      simpa using ih
    · simp only [emitOnce, hc, if_false, Bool.false_eq_true]
      exact ih

/-- Once `isShuttingDown` holds, any further sequence of triggers leaves
the closure state unchanged and enters the cleanup body zero times. -/
theorem deliverAll_noop (ts : List TriggerKind) (s : SysState)
    (h : s.coord.isShuttingDown = true) :
    countStart (deliverAll s ts).2 = 0 ∧
      (deliverAll s ts).1.coord = s.coord := by
  induction ts generalizing s with
  | nil => exact ⟨rfl, rfl⟩
  | cons t ts ih =>
    have he := emitOnce_noop s.handlers t s.coord h
    have hcoord : (deliver s t).1.coord = s.coord := he.1
    have hacts : (deliver s t).2 = [] := he.2
    have hih := ih (deliver s t).1 (by rw [hcoord]; exact h)
    constructor
    · show countStart ((deliver s t).2 ++ (deliverAll (deliver s t).1 ts).2) = 0
      rw [hacts]
      simpa using hih.1
    · show (deliverAll (deliver s t).1 ts).1.coord = s.coord
      rw [hih.2, hcoord]

/-- Helper: delivering the first trigger of any kind to a freshly
installed coordinator enters the cleanup body exactly once and sets
`isShuttingDown`. -/
theorem deliver_fresh (t : TriggerKind) :
    countStart (deliver (setupGracefulShutdown initSys) t).2 = 1 ∧
      (deliver (setupGracefulShutdown initSys) t).1.coord.isShuttingDown
        = true := by
  cases t <;> exact ⟨rfl, rfl⟩

/-- C1: for every nonempty sequence of triggers delivered after
installation, the cleanup body executes exactly once; the
`isShuttingDown` flag ends true (set on the first trigger and never
reset); and any trigger that arrives while the flag is set returns
immediately, with no action and no change to the closure state. -/
theorem C1_cleanup_exactly_once (ts : List TriggerKind) (h : ts ≠ []) :
    countStart (deliverAll (setupGracefulShutdown initSys) ts).2 = 1 ∧
    (deliverAll (setupGracefulShutdown initSys) ts).1.coord.isShuttingDown
      = true ∧
    (∀ s t, s.coord.isShuttingDown = true →
      (deliver s t).2 = [] ∧ (deliver s t).1.coord = s.coord) := by
  refine ⟨?_, ?_, ?_⟩
  · cases ts with
    | nil => exact absurd rfl h
    | cons t ts =>
      have hf := deliver_fresh t
      have hrest :=
        deliverAll_noop ts (deliver (setupGracefulShutdown initSys) t).1 hf.2
      show countStart ((deliver (setupGracefulShutdown initSys) t).2 ++
        (deliverAll (deliver (setupGracefulShutdown initSys) t).1 ts).2) = 1
      unfold countStart at hf hrest ⊢
      rw [List.countP_append, hf.1, hrest.1]
  · cases ts with
    | nil => exact absurd rfl h
    | cons t ts =>
      have hf := deliver_fresh t
      have hrest :=
        deliverAll_noop ts (deliver (setupGracefulShutdown initSys) t).1 hf.2
      show (deliverAll (deliver (setupGracefulShutdown initSys) t).1
        ts).1.coord.isShuttingDown = true
      rw [hrest.2]
      exact hf.2
  · intro s t hs
    have he := emitOnce_noop s.handlers t s.coord hs
    exact ⟨he.2, he.1⟩

/-- Witness for C1 at the concrete trigger sequence
SIGTERM, SIGTERM, SIGINT. -/
theorem C1_cleanup_exactly_once_witness :
    ([TriggerKind.sigterm, TriggerKind.sigterm, TriggerKind.sigint] ≠ []) ∧
    countStart (deliverAll (setupGracefulShutdown initSys)
      [TriggerKind.sigterm, TriggerKind.sigterm,
       TriggerKind.sigint]).2 = 1 ∧
    (deliverAll (setupGracefulShutdown initSys)
      [TriggerKind.sigterm, TriggerKind.sigterm,
       TriggerKind.sigint]).1.coord.isShuttingDown = true :=
  ⟨List.cons_ne_nil _ _,
   (C1_cleanup_exactly_once _ (List.cons_ne_nil _ _)).1,
   (C1_cleanup_exactly_once _ (List.cons_ne_nil _ _)).2.1⟩

/-- C5: `setupGracefulShutdown` is idempotent — a second call returns
without changing anything; the first call from a fresh process sets the
registered guard; after two calls exactly the four handlers are
attached; and a single trigger then causes exactly one cleanup
invocation. -/
theorem C5_setup_idempotent :
    (∀ s, setupGracefulShutdown (setupGracefulShutdown s)
        = setupGracefulShutdown s) ∧
    (setupGracefulShutdown initSys).registered = true ∧
    (setupGracefulShutdown (setupGracefulShutdown initSys)).handlers.length
      = 4 ∧
    (∀ t, countStart (deliver
      (setupGracefulShutdown (setupGracefulShutdown initSys)) t).2 = 1) := by
  refine ⟨?_, rfl, rfl, ?_⟩
  · intro s
    unfold setupGracefulShutdown
    by_cases h : s.registered <;> simp [h]
  · intro t
    cases t <;> rfl

/-- C7: installation attaches exactly the four one-shot trigger handlers;
each delivered trigger routes into `shutdown` with its reason string
recorded as the first logged action; and after a trigger of a kind has
fired, re-emitting the same kind runs no handler body at all, whatever
the closure state — the one-shot registration itself blocks re-entry. -/
theorem C7_one_shot_handlers (t : TriggerKind) :
    (setupGracefulShutdown initSys).handlers =
      [(TriggerKind.sigterm, false), (TriggerKind.sigint, false),
       (TriggerKind.uncaughtException, false),
       (TriggerKind.unhandledRejection, false)] ∧
    (deliver (setupGracefulShutdown initSys) t).2.head?
      = some (Action.logStart (reasonOf t)) ∧
    (∀ c, (emitOnce (deliver (setupGracefulShutdown initSys) t).1.handlers
      t c).2.2 = []) := by
  refine ⟨rfl, ?_, ?_⟩
  · cases t <;> rfl
  · intro c
    cases t <;> rfl

/-- Predicate for a shutdown sequence whose cleanup does not complete
within the grace period: either the drain callback never fires, or drain
completion plus disconnect takes at least `GRACE_MS`. -/
def missesDeadline (drainTime : Option Nat) (disc : Nat) : Prop :=
  match drainTime with
  | none => True
  | some d => GRACE_MS ≤ d + disc

/-- C3: whenever cleanup has not completed within the 10-second grace
period, the deadline action fires at `GRACE_MS` and terminates the
process with exit status 1, regardless of the disconnect outcome the
cleanup path would eventually observe. -/
theorem C3_deadline_forced_exit (drainTime : Option Nat) (disc : Nat)
    (r : Except String Unit) (h : missesDeadline drainTime disc) :
    runShutdownTimed drainTime disc r = ⟨GRACE_MS, 1⟩ := by
  cases drainTime with
  | none => rfl
  | some d =>
    have hd : GRACE_MS ≤ d + disc := h
    simp only [runShutdownTimed]
    rw [if_neg (Nat.not_lt.mpr hd)]

/-- Witness for C3: a drain that never completes is forcibly exited with
status 1 at the deadline. -/
theorem C3_deadline_forced_exit_witness :
    missesDeadline none 0 ∧
    runShutdownTimed none 0 (Except.ok ()) = ⟨GRACE_MS, 1⟩ :=
  ⟨trivial, C3_deadline_forced_exit none 0 (Except.ok ()) trivial⟩

/-- C4: when drain plus disconnect complete strictly inside the grace
period, the process exits at that moment — before the deadline can fire —
with status 0 when no cleanup step raised a failure, and with status 1
when the awaited cleanup step raised one. -/
theorem C4_exit_status_by_outcome (d disc : Nat) (e : String)
    (h : d + disc < GRACE_MS) :
    runShutdownTimed (some d) disc (Except.ok ()) = ⟨d + disc, 0⟩ ∧
    runShutdownTimed (some d) disc (Except.error e) = ⟨d + disc, 1⟩ := by
  simp only [runShutdownTimed]
  rw [if_pos h, if_pos h]
  exact ⟨rfl, rfl⟩

/-- Witness for C4: drain at 50 ms plus a 50 ms disconnect exits at
100 ms with status 0 on success and status 1 on a raised failure. -/
theorem C4_exit_status_by_outcome_witness :
    50 + 50 < GRACE_MS ∧
    (runShutdownTimed (some 50) 50 (Except.ok ()) = ⟨100, 0⟩ ∧
     runShutdownTimed (some 50) 50 (Except.error "boom") = ⟨100, 1⟩) :=
  ⟨by decide, C4_exit_status_by_outcome 50 50 "boom" (by decide)⟩

/-- C6: a storage-disconnect failure is swallowed by `disconnectDb`
(it resolves for every underlying prisma outcome, never re-throws), and
the exit event of the timed shutdown sequence is identical for any two
prisma outcomes — the exit status depends only on timing, never on
whether the disconnect succeeded. -/
theorem C6_disconnect_failure_swallowed (drainTime : Option Nat)
    (disc : Nat) (p q : Except String Unit) :
    disconnectDb p = Except.ok () ∧
    runShutdownTimed drainTime disc (disconnectDb p)
      = runShutdownTimed drainTime disc (disconnectDb q) := by
  constructor
  · cases p <;> rfl
  · cases p <;> cases q <;> rfl

/-- C9: `disconnectDb` never rejects — it resolves for every outcome of
the underlying prisma disconnect — so the `server.close` callback always
takes its success branch and exits with status 0 on the non-deadline
path; its exit-status-1 branch is unreachable via a disconnect failure. -/
theorem C9_disconnectDb_never_rejects (p : Except String Unit) :
    disconnectDb p = Except.ok () ∧
    closeCallback (disconnectDb p) = [Action.exitProc 0] := by
  cases p <;> exact ⟨rfl, rfl⟩

/-- C10: `connectDb` never rejects its returned promise — for every
prisma outcome it either resolves or has already terminated the process
itself with exit status 1 — so the catch branch of `startServer` is
unreachable through a connection error from `connectDb`. -/
theorem C10_connectDb_never_rejects (pc : Except String Unit) :
    (connectDb pc = AsyncOutcome.resolved ∨ connectDb pc = AsyncOutcome.exited 1) ∧
    startServer pc ≠ StartOutcome.failedToStart ∧
    (∀ e, connectDb (Except.error e) = AsyncOutcome.exited 1) := by
  refine ⟨?_, ?_, fun e => rfl⟩
  · cases pc with
    | ok _ => exact Or.inl rfl
    | error _ => exact Or.inr rfl
  · cases pc <;> simp [startServer, connectDb]

/-- Witness for C10 at concrete prisma outcomes: a successful connection
resolves and a failed one exits the process with status 1 from inside
`connectDb`, never reaching the caller catch branch. -/
theorem C10_connectDb_never_rejects_witness :
    (connectDb (Except.ok ()) = AsyncOutcome.resolved ∨
     connectDb (Except.ok ()) = AsyncOutcome.exited 1) ∧
    startServer (Except.ok ()) ≠ StartOutcome.failedToStart ∧
    connectDb (Except.error "ECONNREFUSED") = AsyncOutcome.exited 1 :=
  ⟨(C10_connectDb_never_rejects (Except.ok ())).1,
   (C10_connectDb_never_rejects (Except.ok ())).2.1,
   (C10_connectDb_never_rejects (Except.ok ())).2.2 "ECONNREFUSED"⟩

/-- Counterexample to C2: trigger SIGTERM from the initial state and let
drain and disconnect succeed.  The full trace arms the deadline timer
(id 0), exits with status 0, and contains no `clearTimeout` action at
all; the armed timer handle is still stored when the process exits.
The claimed explicit cancellation of the deadline before exit does not
happen. -/
theorem C2_counterexample :
    (runToCleanExit initCoord "SIGTERM" (Except.ok ())).2 =
      [Action.logStart "SIGTERM", Action.serverClose,
       Action.armTimer 0 GRACE_MS, Action.exitProc 0] ∧
    countClears (runToCleanExit initCoord "SIGTERM" (Except.ok ())).2 = 0 ∧
    (runToCleanExit initCoord "SIGTERM" (Except.ok ())).1.shutdownTimeout
      = some 0 :=
  ⟨rfl, rfl, rfl⟩

/-- C2 (amended): the forced-exit deadline armed during the shutdown
sequence is never explicitly cancelled — for every signal and every
disconnect outcome, the trace from trigger through process exit contains
zero `clearTimeout` actions and the timer handle remains armed in the
final state.  The only `clearTimeout` in the source runs at the start of
a `shutdown` call, where no timer of the current sequence exists yet;
the pending deadline is discarded only by process exit itself. -/
theorem C2_no_explicit_cancellation (signal : String)
    (r : Except String Unit) :
    countClears (runToCleanExit initCoord signal r).2 = 0 ∧
    (runToCleanExit initCoord signal r).1.shutdownTimeout = some 0 := by
  cases r <;> exact ⟨rfl, rfl⟩

/-- Counterexample to C8: in the trace of the first effective `shutdown`
invocation, `server.close` is performed at position 1 and the forced-exit
deadline is armed at position 2 — the listener is instructed to close
strictly before the deadline action is scheduled, not after it as the
claim states. -/
theorem C8_counterexample :
    (shutdown initCoord "SIGTERM").2 =
      [Action.logStart "SIGTERM", Action.serverClose,
       Action.armTimer 0 GRACE_MS] ∧
    (shutdown initCoord "SIGTERM").2[1]? = some Action.serverClose ∧
    (shutdown initCoord "SIGTERM").2[2]? = some (Action.armTimer 0 GRACE_MS) :=
  ⟨rfl, rfl, rfl⟩

/-- C8 (amended): within a single execution of the shutdown sequence,
the listener handle is instructed to stop accepting connections first,
and the forced-exit deadline action is scheduled immediately afterwards:
the trace of every effective `shutdown` invocation ends with
`serverClose` followed by the arming of the 10-second deadline. -/
theorem C8_close_then_arm_deadline (s : CoordState) (signal : String)
    (h : s.isShuttingDown = false) :
    ((shutdown s signal).2).drop ((shutdown s signal).2.length - 2) =
      [Action.serverClose, Action.armTimer s.nextTimerId GRACE_MS] := by
  unfold shutdown
  rw [h]
  rcases hst : s.shutdownTimeout with _ | t <;> simp [hst]

/-- Witness for C8 (amended) at the initial state and signal SIGTERM. -/
theorem C8_close_then_arm_deadline_witness :
    initCoord.isShuttingDown = false ∧
    ((shutdown initCoord "SIGTERM").2).drop
        ((shutdown initCoord "SIGTERM").2.length - 2) =
      [Action.serverClose, Action.armTimer initCoord.nextTimerId GRACE_MS] :=
  ⟨rfl, C8_close_then_arm_deadline initCoord "SIGTERM" rfl⟩

end ExpressStarter
